import Mathlib

/-!
Verification development for the AACP session manager
(src/linux-rust/src/bluetooth/aacp.rs).

The Rust code is shallowly embedded: bytes are Nat (every wire byte is a
u8, 0..=255), byte buffers are List Nat, shared state is a record passed
explicitly, and fallible code returns Option, where a result of none
models a Rust panic (out-of-bounds slice index, Vec::remove on an empty
Vec, Option::unwrap on None).  The event channel is modelled by the list
of events a call emits, and the devices-file persistence by the list of
snapshots a call writes.
-/

set_option maxRecDepth 8192

/-- The fixed 4-byte AACP frame header. -/
def HEADER_BYTES : List Nat := [0x04, 0x00, 0x04, 0x00]

namespace opcodes

def SET_FEATURE_FLAGS : Nat := 0x4D
def REQUEST_NOTIFICATIONS : Nat := 0x0F
def BATTERY_INFO : Nat := 0x04
def CONTROL_COMMAND : Nat := 0x09
def EAR_DETECTION : Nat := 0x06
def CONVERSATION_AWARENESS : Nat := 0x4B
def INFORMATION : Nat := 0x1D
def RENAME : Nat := 0x1E
def PROXIMITY_KEYS_REQ : Nat := 0x30
def PROXIMITY_KEYS_RSP : Nat := 0x31
def STEM_PRESS : Nat := 0x19
def EQ_DATA : Nat := 0x53
def CONNECTED_DEVICES : Nat := 0x2E
def AUDIO_SOURCE : Nat := 0x0E
def SMART_ROUTING : Nat := 0x10
def SMART_ROUTING_RESP : Nat := 0x11

end opcodes

inductive ControlCommandIdentifiers where
  | MicMode
  | ButtonSendMode
  | VoiceTrigger
  | SingleClickMode
  | DoubleClickMode
  | ClickHoldMode
  | DoubleClickInterval
  | ClickHoldInterval
  | ListeningModeConfigs
  | OneBudAncMode
  | CrownRotationDirection
  | ListeningMode
  | AutoAnswerMode
  | ChimeVolume
  | VolumeSwipeInterval
  | CallManagementConfig
  | VolumeSwipeMode
  | AdaptiveVolumeConfig
  | SoftwareMuteConfig
  | ConversationDetectConfig
  | Ssl
  | HearingAid
  | AutoAncStrength
  | HpsGainSwipe
  | HrmState
  | InCaseToneConfig
  | SiriMultitoneConfig
  | HearingAssistConfig
  | AllowOffOption
  | StemConfig
  | SleepDetectionConfig
  | AllowAutoConnect
  | EarDetectionConfig
  | AutomaticConnectionConfig
  | OwnsConnection
deriving DecidableEq

def ControlCommandIdentifiers.from_u8 (value : Nat) : Option ControlCommandIdentifiers :=
  match value with
  | 0x01 => some .MicMode
  | 0x05 => some .ButtonSendMode
  | 0x12 => some .VoiceTrigger
  | 0x14 => some .SingleClickMode
  | 0x15 => some .DoubleClickMode
  | 0x16 => some .ClickHoldMode
  | 0x17 => some .DoubleClickInterval
  | 0x18 => some .ClickHoldInterval
  | 0x1A => some .ListeningModeConfigs
  | 0x1B => some .OneBudAncMode
  | 0x1C => some .CrownRotationDirection
  | 0x0D => some .ListeningMode
  | 0x1E => some .AutoAnswerMode
  | 0x1F => some .ChimeVolume
  | 0x23 => some .VolumeSwipeInterval
  | 0x24 => some .CallManagementConfig
  | 0x25 => some .VolumeSwipeMode
  | 0x26 => some .AdaptiveVolumeConfig
  | 0x27 => some .SoftwareMuteConfig
  | 0x28 => some .ConversationDetectConfig
  | 0x29 => some .Ssl
  | 0x2C => some .HearingAid
  | 0x2E => some .AutoAncStrength
  | 0x2F => some .HpsGainSwipe
  | 0x30 => some .HrmState
  | 0x31 => some .InCaseToneConfig
  | 0x32 => some .SiriMultitoneConfig
  | 0x33 => some .HearingAssistConfig
  | 0x34 => some .AllowOffOption
  | 0x39 => some .StemConfig
  | 0x35 => some .SleepDetectionConfig
  | 0x36 => some .AllowAutoConnect
  | 0x0A => some .EarDetectionConfig
  | 0x20 => some .AutomaticConnectionConfig
  | 0x06 => some .OwnsConnection
  | _ => none

/-- The wire byte of a control command identifier (the repr(u8) value). -/
def ControlCommandIdentifiers.as_u8 : ControlCommandIdentifiers → Nat
  | .MicMode => 0x01
  | .ButtonSendMode => 0x05
  | .VoiceTrigger => 0x12
  | .SingleClickMode => 0x14
  | .DoubleClickMode => 0x15
  | .ClickHoldMode => 0x16
  | .DoubleClickInterval => 0x17
  | .ClickHoldInterval => 0x18
  | .ListeningModeConfigs => 0x1A
  | .OneBudAncMode => 0x1B
  | .CrownRotationDirection => 0x1C
  | .ListeningMode => 0x0D
  | .AutoAnswerMode => 0x1E
  | .ChimeVolume => 0x1F
  | .VolumeSwipeInterval => 0x23
  | .CallManagementConfig => 0x24
  | .VolumeSwipeMode => 0x25
  | .AdaptiveVolumeConfig => 0x26
  | .SoftwareMuteConfig => 0x27
  | .ConversationDetectConfig => 0x28
  | .Ssl => 0x29
  | .HearingAid => 0x2C
  | .AutoAncStrength => 0x2E
  | .HpsGainSwipe => 0x2F
  | .HrmState => 0x30
  | .InCaseToneConfig => 0x31
  | .SiriMultitoneConfig => 0x32
  | .HearingAssistConfig => 0x33
  | .AllowOffOption => 0x34
  | .StemConfig => 0x39
  | .SleepDetectionConfig => 0x35
  | .AllowAutoConnect => 0x36
  | .EarDetectionConfig => 0x0A
  | .AutomaticConnectionConfig => 0x20
  | .OwnsConnection => 0x06

structure ControlCommandStatus where
  identifier : ControlCommandIdentifiers
  value : List Nat
deriving DecidableEq

inductive ProximityKeyType where
  | Irk
  | EncKey
deriving DecidableEq

def ProximityKeyType.from_u8 (value : Nat) : Option ProximityKeyType :=
  match value with
  | 0x01 => some .Irk
  | 0x04 => some .EncKey
  | _ => none

def ProximityKeyType.as_u8 : ProximityKeyType → Nat
  | .Irk => 0x01
  | .EncKey => 0x04

inductive AudioSourceType where
  | None
  | Call
  | Media
deriving DecidableEq

def AudioSourceType.from_u8 (value : Nat) : Option AudioSourceType :=
  match value with
  | 0x00 => some .None
  | 0x01 => some .Call
  | 0x02 => some .Media
  | _ => none

inductive BatteryComponent where
  | Left
  | Right
  | Case
deriving DecidableEq

inductive BatteryStatus where
  | Charging
  | NotCharging
  | Disconnected
deriving DecidableEq

inductive EarDetectionStatus where
  | InEar
  | OutOfEar
  | InCase
  | Disconnected
deriving DecidableEq

structure AudioSource where
  mac : String
  type : AudioSourceType
deriving DecidableEq

structure BatteryInfo where
  component : BatteryComponent
  level : Nat
  status : BatteryStatus
deriving DecidableEq

structure ConnectedDevice where
  mac : String
  info1 : Nat
  info2 : Nat
  type : Option String
deriving DecidableEq

structure AirPodsLEKeys where
  irk : String
  enc_key : String
deriving DecidableEq

/-- Modelled from the spec: the AirPods device information record persisted
per device (crate devices::airpods, not under src/): ten identity or version
strings plus the LE keys pair of irk and enc_key hex strings. -/
structure AirPodsInformation where
  name : String
  model_number : String
  manufacturer : String
  serial_number : String
  version1 : String
  version2 : String
  hardware_revision : String
  updater_identifier : String
  left_serial_number : String
  right_serial_number : String
  version3 : String
  le_keys : AirPodsLEKeys
deriving DecidableEq

/-- Modelled from the spec: the device kind tag of a persisted record
(crate devices::enums, not under src/); aacp.rs only uses the AirPods kind. -/
inductive DeviceType where
  | AirPods
  | OtherType
deriving DecidableEq

/-- Modelled from the spec: the optional information payload of a persisted
record (crate devices::enums, not under src/); aacp.rs matches on the
AirPods variant and treats everything else via a wildcard arm. -/
inductive DeviceInformation where
  | AirPods (info : AirPodsInformation)
  | OtherInformation
deriving DecidableEq

/-- Modelled from the spec: a persisted device record
mac maps to name, kind, optional information (crate devices::enums). -/
structure DeviceData where
  name : String
  type_ : DeviceType
  information : Option DeviceInformation
deriving DecidableEq

inductive AACPEvent where
  | BatteryInfo (batteries : List BatteryInfo)
  | ControlCommand (status : ControlCommandStatus)
  | EarDetection (old new : List EarDetectionStatus)
  | ConversationalAwareness (status : Nat)
  | ProximityKeys (keys : List (Nat × List Nat))
  | AudioSource (source : AudioSource)
  | ConnectedDevices (old new : List ConnectedDevice)
  | OwnershipToFalseRequest
deriving DecidableEq

/-- The devices map (a serde HashMap of mac to record) as an association
list with unique keys; lookup order is all the code observes. -/
abbrev DevMap := List (String × DeviceData)

/-- The shared AACPManagerState.  The mpsc sender is modelled as the queue
of packets handed to the send thread (none when disconnected); the event
channel handle is modelled by the flag event_tx; the per-identifier
subscriber channels carry no state that the embedded code reads, so they
are not modelled (their fan-out is best-effort sends).  The AirPods
Address is modelled by its colon-separated upper-case string form, which
is the only way the embedded arms consume it (mac.to_string()). -/
structure AACPManagerState where
  sender : Option (List (List Nat))
  control_command_status_list : List ControlCommandStatus
  owns : Bool
  old_connected_devices : List ConnectedDevice
  connected_devices : List ConnectedDevice
  audio_source : Option AudioSource
  battery_info : List BatteryInfo
  conversational_awareness_status : Nat
  old_ear_detection_status : List EarDetectionStatus
  ear_detection_status : List EarDetectionStatus
  event_tx : Bool
  devices : DevMap
  airpods_mac : Option String

/-- AACPManagerState::new() for the case where the devices file is missing
or undecodable (the devices map starts empty). -/
def init_state : AACPManagerState :=
  { sender := none
  , control_command_status_list := []
  , owns := false
  , old_connected_devices := []
  , connected_devices := []
  , audio_source := none
  , battery_info := []
  , conversational_awareness_status := 0
  , old_ear_detection_status := []
  , ear_detection_status := []
  , event_tx := false
  , devices := []
  , airpods_mac := none }

/-- Result of one receive_packet call: the new shared state, the events
sent to the event channel, and the devices snapshots written to disk.
An overall none models a panic. -/
abbrev RpResult := AACPManagerState × List AACPEvent × List DevMap

/- ---------- small helpers mirroring std functions ---------- -/

/-- Nat.toDigits already yields lower-case hex digit chars; pad on the
left with zeros to a minimum width of two. -/
def hex_digits_pad2 (n : Nat) : List Char :=
  let ds := Nat.toDigits 16 n
  List.replicate (2 - ds.length) '0' ++ ds

/-- hex::encode of a byte sequence: lower-case, two digits per byte. -/
def hex_encode (bytes : List Nat) : String :=
  String.join (bytes.map (fun b => String.mk (hex_digits_pad2 b)))

/-- One byte under the 02X format: upper-case, zero-padded to width two. -/
def hex_upper2 (n : Nat) : String :=
  String.mk ((hex_digits_pad2 n).map Char.toUpper)

/-- Decode one UTF-8 scalar from the front of a byte list, returning it with
the remaining bytes; strict std validity (no overlong forms, no surrogates,
at most U+10FFFF).  A success always consumes at least one byte. -/
def utf8_decode_one : List Nat → Option (Nat × List Nat)
  | [] => none
  | b0 :: r0 =>
    if b0 < 0x80 then some (b0, r0)
    else if b0 < 0xC2 then none
    else if b0 < 0xE0 then
      match r0 with
      | b1 :: r1 =>
        if 0x80 ≤ b1 ∧ b1 < 0xC0 then
          some ((b0 - 0xC0) * 0x40 + (b1 - 0x80), r1)
        else none
      | [] => none
    else if b0 < 0xF0 then
      match r0 with
      | b1 :: b2 :: r2 =>
        if (if b0 = 0xE0 then 0xA0 ≤ b1 ∧ b1 < 0xC0
            else if b0 = 0xED then 0x80 ≤ b1 ∧ b1 < 0xA0
            else 0x80 ≤ b1 ∧ b1 < 0xC0) ∧ 0x80 ≤ b2 ∧ b2 < 0xC0 then
          some ((b0 - 0xE0) * 0x1000 + (b1 - 0x80) * 0x40 + (b2 - 0x80), r2)
        else none
      | _ => none
    else if b0 < 0xF5 then
      match r0 with
      | b1 :: b2 :: b3 :: r3 =>
        if (if b0 = 0xF0 then 0x90 ≤ b1 ∧ b1 < 0xC0
            else if b0 = 0xF4 then 0x80 ≤ b1 ∧ b1 < 0x90
            else 0x80 ≤ b1 ∧ b1 < 0xC0) ∧ 0x80 ≤ b2 ∧ b2 < 0xC0 ∧
            0x80 ≤ b3 ∧ b3 < 0xC0 then
          some ((b0 - 0xF0) * 0x40000 + (b1 - 0x80) * 0x1000 +
                (b2 - 0x80) * 0x40 + (b3 - 0x80), r3)
        else none
      | _ => none
    else none

def utf8_decode_aux : Nat → List Nat → Option (List Char)
  | _, [] => some []
  | 0, _ :: _ => none
  | fuel + 1, l =>
    match utf8_decode_one l with
    | none => none
    | some (c, rest) =>
      match utf8_decode_aux fuel rest with
      | none => none
      | some cs => some (Char.ofNat c :: cs)

/-- Model of std::str::from_utf8 over a byte list (fuel equal to the list
length suffices because every decoded scalar consumes at least one byte). -/
def utf8_string? (l : List Nat) : Option String :=
  (utf8_decode_aux l.length l).map fun cs => String.mk cs

/-- The UTF-8 bytes of an ASCII string literal. -/
def ascii_bytes (s : String) : List Nat :=
  s.toList.map Char.toNat

/- ---------- receive_packet ---------- -/

def battery_component_of (b : Nat) : Option BatteryComponent :=
  match b with
  | 0x02 => some .Right
  | 0x04 => some .Left
  | 0x08 => some .Case
  | _ => none

def battery_status_of (b : Nat) : Option BatteryStatus :=
  match b with
  | 0x01 => some .Charging
  | 0x02 => some .NotCharging
  | 0x04 => some .Disconnected
  | _ => none

/-- One battery entry at base; an unknown component or status byte skips
the entry (the continue in the source). -/
def battery_entry? (payload : List Nat) (base : Nat) : Option BatteryInfo :=
  match battery_component_of (payload.getD base 0),
        battery_status_of (payload.getD (base + 3) 0) with
  | some c, some s => some { component := c, level := payload.getD (base + 2) 0, status := s }
  | _, _ => none

def handle_battery_info (st : AACPManagerState) (payload : List Nat) : Option RpResult :=
  if payload.length < 3 then some (st, [], [])
  else
    let count := payload.getD 2 0
    if payload.length < 3 + count * 5 then some (st, [], [])
    else
      let batteries := (List.range count).filterMap (fun i => battery_entry? payload (3 + i * 5))
      some ({ st with battery_info := batteries },
            if st.event_tx then [AACPEvent.BatteryInfo batteries] else [], [])

/-- rposition of a non-zero byte. -/
def last_non_zero : List Nat → Option Nat
  | [] => none
  | b :: rest =>
    match last_non_zero rest with
    | some i => some (i + 1)
    | none => if b ≠ 0 then some 0 else none

/-- value_bytes[..=i] for the last non-zero position i, or [0]. -/
def trim_value (value_bytes : List Nat) : List Nat :=
  match last_non_zero value_bytes with
  | some i => value_bytes.take (i + 1)
  | none => [0]

/-- Replace the value of the first entry with this identifier, else push a
new entry at the end (the iter_mut().find / push pair in the source). -/
def update_shadow : List ControlCommandStatus → ControlCommandIdentifiers → List Nat →
    List ControlCommandStatus
  | [], identifier, value => [⟨identifier, value⟩]
  | s :: rest, identifier, value =>
    if s.identifier = identifier then ⟨identifier, value⟩ :: rest
    else s :: update_shadow rest identifier value

def handle_control_command (st : AACPManagerState) (payload : List Nat) : Option RpResult :=
  if payload.length < 7 then some (st, [], [])
  else
    let identifier_byte := payload.getD 2 0
    let value_bytes := (payload.drop 3).take 4
    let value := trim_value value_bytes
    match ControlCommandIdentifiers.from_u8 identifier_byte with
    | some identifier =>
      some ({ st with
                control_command_status_list :=
                  update_shadow st.control_command_status_list identifier value
              , owns := if identifier = ControlCommandIdentifiers.OwnsConnection
                        then value_bytes.getD 0 0 != 0 else st.owns },
            if st.event_tx then [AACPEvent.ControlCommand ⟨identifier, value⟩] else [], [])
    | none => some (st, [], [])

/-- The status table with the unknown-byte fallback to OutOfEar. -/
def ear_status_of (b : Nat) : EarDetectionStatus :=
  match b with
  | 0x00 => .InEar
  | 0x01 => .OutOfEar
  | 0x02 => .InCase
  | 0x03 => .Disconnected
  | _ => .OutOfEar

/-- The source indexes packet[6] and packet[7] with no length guard, so a
frame shorter than 8 bytes panics (modelled by none). -/
def handle_ear_detection (st : AACPManagerState) (packet : List Nat) : Option RpResult :=
  match packet[6]?, packet[7]? with
  | some primary, some secondary =>
    let statuses := [ear_status_of primary, ear_status_of secondary]
    some ({ st with old_ear_detection_status := st.ear_detection_status
                  , ear_detection_status := statuses },
          if st.event_tx then [AACPEvent.EarDetection st.ear_detection_status statuses] else [],
          [])
  | _, _ => none

def handle_conversation_awareness (st : AACPManagerState) (packet : List Nat) : Option RpResult :=
  if packet.length = 10 then
    let status := packet.getD 9 0
    some ({ st with conversational_awareness_status := status },
          if st.event_tx then [AACPEvent.ConversationalAwareness status] else [], [])
  else some (st, [], [])

def extract_runs_aux : Nat → List Nat → List (List Nat)
  | _, [] => []
  | 0, _ :: _ => []
  | fuel + 1, b :: rest =>
    if b = 0 then extract_runs_aux fuel rest
    else (b :: rest.takeWhile (fun x => x ≠ 0)) ::
         extract_runs_aux fuel (rest.dropWhile (fun x => x ≠ 0))

/-- The NUL-delimited non-empty byte runs of the data, each zero byte
being skipped one at a time (fuel equal to the list length suffices
because every step consumes at least one byte). -/
def extract_runs (l : List Nat) : List (List Nat) :=
  extract_runs_aux l.length l

/-- Update the record stored under this key in place; the map is untouched
when the key is absent (HashMap::get_mut returning None). -/
def update_first_dev : DevMap → String → (DeviceData → DeviceData) → DevMap
  | [], _, _ => []
  | (k, d) :: rest, key, f =>
    if k = key then (k, f d) :: rest else (k, d) :: update_first_dev rest key f

def find_dev : DevMap → String → Option DeviceData
  | [], _ => none
  | (k, d) :: rest, key => if k = key then some d else find_dev rest key

/-- HashMap::entry(key).or_insert(dflt) followed by mutating the entry. -/
def entry_or_insert_then (m : DevMap) (key : String) (dflt : DeviceData)
    (f : DeviceData → DeviceData) : DevMap :=
  if (find_dev m key).isSome then update_first_dev m key f
  else m ++ [(key, f dflt)]

def handle_information (st : AACPManagerState) (payload : List Nat) : Option RpResult :=
  if payload.length < 6 then some (st, [], [])
  else
    let data := payload.drop 4
    let runs := extract_runs (data.dropWhile (fun x => x ≠ 0))
    let strings := runs.filterMap utf8_string?
    match strings with
    | [] => none
    | _ :: strs =>
      let info : AirPodsInformation :=
        { name := strs.getD 0 ""
        , model_number := strs.getD 1 ""
        , manufacturer := strs.getD 2 ""
        , serial_number := strs.getD 3 ""
        , version1 := strs.getD 4 ""
        , version2 := strs.getD 5 ""
        , hardware_revision := strs.getD 6 ""
        , updater_identifier := strs.getD 7 ""
        , left_serial_number := strs.getD 8 ""
        , right_serial_number := strs.getD 9 ""
        , version3 := strs.getD 10 ""
        , le_keys := { irk := "", enc_key := "" } }
      let devices :=
        match st.airpods_mac with
        | some mac =>
          update_first_dev st.devices mac
            (fun d => { d with name := info.name
                             , information := some (DeviceInformation.AirPods info) })
        | none => st.devices
      some ({ st with devices := devices }, [], [devices])

/-- The proximity keys wire walk: at each offset read key_type and, two
bytes later, key_length, advance by four, then consume key_length data
bytes.  Any shortfall aborts the whole parse (the error returns). -/
def parse_keys (payload : List Nat) : Nat → Nat → Option (List (Nat × List Nat))
  | 0, _ => some []
  | n + 1, offset =>
    if offset + 3 ≥ payload.length then none
    else
      let key_type := payload.getD offset 0
      let key_length := payload.getD (offset + 2) 0
      if offset + 4 + key_length > payload.length then none
      else
        match parse_keys payload n (offset + 4 + key_length) with
        | none => none
        | some keys => some ((key_type, (payload.drop (offset + 4)).take key_length) :: keys)

/-- Write one proximity key into the LE keys of a record that already
carries AirPods information; anything else only logs an error. -/
def apply_le_key (kt : ProximityKeyType) (key_data : List Nat) (d : DeviceData) : DeviceData :=
  match kt with
  | .Irk =>
    match d.information with
    | some (DeviceInformation.AirPods info) =>
      { d with information := some (DeviceInformation.AirPods
          { info with le_keys := { info.le_keys with irk := hex_encode key_data } }) }
    | _ => d
  | .EncKey =>
    match d.information with
    | some (DeviceInformation.AirPods info) =>
      { d with information := some (DeviceInformation.AirPods
          { info with le_keys := { info.le_keys with enc_key := hex_encode key_data } }) }
    | _ => d

def apply_key (mac? : Option String) (devs : DevMap) (k : Nat × List Nat) : DevMap :=
  match ProximityKeyType.from_u8 k.1 with
  | none => devs
  | some kt =>
    match mac? with
    | none => devs
    | some mac =>
      entry_or_insert_then devs mac
        { name := mac, type_ := DeviceType.AirPods, information := none }
        (apply_le_key kt k.2)

def handle_proximity_keys_rsp (st : AACPManagerState) (payload : List Nat) : Option RpResult :=
  if payload.length < 4 then some (st, [], [])
  else
    match parse_keys payload (payload.getD 2 0) 3 with
    | none => some (st, [], [])
    | some keys =>
      let devices := keys.foldl (apply_key st.airpods_mac) st.devices
      some ({ st with devices := devices }, [], [devices])

def handle_audio_source (st : AACPManagerState) (payload : List Nat) : Option RpResult :=
  if payload.length < 9 then some (st, [], [])
  else
    let mac := hex_upper2 (payload.getD 7 0) ++ ":" ++ hex_upper2 (payload.getD 6 0) ++ ":" ++
               hex_upper2 (payload.getD 5 0) ++ ":" ++ hex_upper2 (payload.getD 4 0) ++ ":" ++
               hex_upper2 (payload.getD 3 0) ++ ":" ++ hex_upper2 (payload.getD 2 0)
    let typ := (AudioSourceType.from_u8 (payload.getD 8 0)).getD AudioSourceType.None
    let source : AudioSource := { mac := mac, type := typ }
    some ({ st with audio_source := some source },
          if st.event_tx then [AACPEvent.AudioSource source] else [], [])

/-- One connected device at base; each of the eight indexed reads can be
out of bounds (a panic, modelled by none) because the length guard of the
arm only covers 3 + count * 8 bytes while the reads start at offset 5. -/
def connected_device? (payload : List Nat) (base : Nat) : Option ConnectedDevice :=
  match payload[base]?, payload[base + 1]?, payload[base + 2]?, payload[base + 3]?,
        payload[base + 4]?, payload[base + 5]?, payload[base + 6]?, payload[base + 7]? with
  | some b0, some b1, some b2, some b3, some b4, some b5, some i1, some i2 =>
    some { mac := hex_upper2 b0 ++ ":" ++ hex_upper2 b1 ++ ":" ++ hex_upper2 b2 ++ ":" ++
                  hex_upper2 b3 ++ ":" ++ hex_upper2 b4 ++ ":" ++ hex_upper2 b5
         , info1 := i1, info2 := i2, type := none }
  | _, _, _, _, _, _, _, _ => none

def handle_connected_devices (st : AACPManagerState) (payload : List Nat) : Option RpResult :=
  if payload.length < 3 then some (st, [], [])
  else
    let count := payload.getD 2 0
    if payload.length < 3 + count * 8 then some (st, [], [])
    else
      match (List.range count).mapM (fun i => connected_device? payload (5 + i * 8)) with
      | none => none
      | some devices =>
        some ({ st with old_connected_devices := st.connected_devices
                      , connected_devices := devices },
              if st.event_tx then
                [AACPEvent.ConnectedDevices st.connected_devices devices]
              else [], [])

/-- needle occurs contiguously in hay. -/
def contains_bytes (hay needle : List Nat) : Bool :=
  match hay with
  | [] => needle.isEmpty
  | _ :: rest => needle.isPrefixOf hay || contains_bytes rest needle

/-- The source slices payload[2..], which panics when the payload is a
single byte; from_utf8_lossy followed by a search for the ASCII needle
SetOwnershipToFalse is equivalent to a byte-level search, since lossy
decoding keeps every ASCII byte and replacement characters are
non-ASCII. -/
def handle_smart_routing_resp (st : AACPManagerState) (payload : List Nat) : Option RpResult :=
  if payload.length < 2 then none
  else
    let evs :=
      if contains_bytes (payload.drop 2) (ascii_bytes "SetOwnershipToFalse") then
        if st.event_tx then [AACPEvent.OwnershipToFalseRequest] else []
      else []
    some (st, evs, [])

def dispatch_opcode (st : AACPManagerState) (packet payload : List Nat) : Option RpResult :=
  let opcode := payload.headD 0
  if opcode = opcodes.BATTERY_INFO then handle_battery_info st payload
  else if opcode = opcodes.CONTROL_COMMAND then handle_control_command st payload
  else if opcode = opcodes.EAR_DETECTION then handle_ear_detection st packet
  else if opcode = opcodes.CONVERSATION_AWARENESS then handle_conversation_awareness st packet
  else if opcode = opcodes.INFORMATION then handle_information st payload
  else if opcode = opcodes.PROXIMITY_KEYS_RSP then handle_proximity_keys_rsp st payload
  else if opcode = opcodes.STEM_PRESS then some (st, [], [])
  else if opcode = opcodes.AUDIO_SOURCE then handle_audio_source st payload
  else if opcode = opcodes.CONNECTED_DEVICES then handle_connected_devices st payload
  else if opcode = opcodes.SMART_ROUTING_RESP then handle_smart_routing_resp st payload
  else if opcode = opcodes.EQ_DATA then some (st, [], [])
  else some (st, [], [])

def receive_packet (st : AACPManagerState) (packet : List Nat) : Option RpResult :=
  if !(HEADER_BYTES.isPrefixOf packet) then some (st, [], [])
  else if packet.length < 5 then some (st, [], [])
  else dispatch_opcode st packet (packet.drop 4)

/- ---------- the send side ---------- -/

inductive SendError where
  | notConnected
deriving DecidableEq

/-- send_packet hands the bytes to the outbound channel when the sender
handle is present and otherwise returns the not-connected error, leaving
the state untouched (the channel-closed error of a successful handle is
outside this model). -/
def send_packet (st : AACPManagerState) (data : List Nat) :
    Except SendError Unit × AACPManagerState :=
  match st.sender with
  | some queue => (Except.ok (), { st with sender := some (queue ++ [data]) })
  | none => (Except.error SendError.notConnected, st)

def send_data_packet (st : AACPManagerState) (data : List Nat) :
    Except SendError Unit × AACPManagerState :=
  send_packet st (HEADER_BYTES ++ data)

def send_notification_request (st : AACPManagerState) :
    Except SendError Unit × AACPManagerState :=
  send_data_packet st ([opcodes.REQUEST_NOTIFICATIONS, 0x00] ++ [0xFF, 0xFF, 0xFF, 0xFF])

def send_set_feature_flags_packet (st : AACPManagerState) :
    Except SendError Unit × AACPManagerState :=
  send_data_packet st
    ([opcodes.SET_FEATURE_FLAGS, 0x00] ++ [0xFF, 0x00, 0x00, 0x00, 0x00, 0x00, 0x00, 0x00])

def send_handshake (st : AACPManagerState) : Except SendError Unit × AACPManagerState :=
  send_packet st
    [0x00, 0x00, 0x04, 0x00, 0x01, 0x00, 0x02, 0x00,
     0x00, 0x00, 0x00, 0x00, 0x00, 0x00, 0x00, 0x00]

def send_proximity_keys_request (st : AACPManagerState) (key_types : List ProximityKeyType) :
    Except SendError Unit × AACPManagerState :=
  send_data_packet st
    ([opcodes.PROXIMITY_KEYS_REQ, 0x00] ++
     [key_types.foldl (fun acc kt => acc ||| kt.as_u8) 0, 0x00])

/-- The rename payload; the name argument is its UTF-8 byte sequence and
the size byte is the u8 truncation of its length. -/
def send_rename_packet (st : AACPManagerState) (name_bytes : List Nat) :
    Except SendError Unit × AACPManagerState :=
  send_data_packet st
    ([opcodes.RENAME, 0x00, name_bytes.length % 256, 0x00] ++ name_bytes)

def send_control_command (st : AACPManagerState) (identifier : ControlCommandIdentifiers)
    (value : List Nat) : Except SendError Unit × AACPManagerState :=
  send_data_packet st
    ([opcodes.CONTROL_COMMAND, 0x00] ++
     (identifier.as_u8 :: (List.range 4).map (fun i => value.getD i 0)))

/-- str::split(':') over the UTF-8 bytes of the argument (the separator is
ASCII, so byte-level splitting coincides with the string split). -/
def split_colon : List Nat → List (List Nat)
  | [] => [[]]
  | b :: rest =>
    if b = 0x3A then [] :: split_colon rest
    else
      match split_colon rest with
      | t :: ts => (b :: t) :: ts
      | [] => [[b]]

def hex_digit_val? (c : Nat) : Option Nat :=
  if 0x30 ≤ c ∧ c ≤ 0x39 then some (c - 0x30)
  else if 0x61 ≤ c ∧ c ≤ 0x66 then some (c - 0x61 + 10)
  else if 0x41 ≤ c ∧ c ≤ 0x46 then some (c - 0x41 + 10)
  else none

/-- Model of u8::from_str_radix(token, 16): an optional sign, then one or
more hex digits; the value must fit in a u8, and after a minus sign any
non-zero digit underflows.  The stepwise checked arithmetic of std agrees
with checking the final accumulated value. -/
def u8_from_str_radix16 (token : List Nat) : Option Nat :=
  let signed : Bool × List Nat :=
    match token with
    | 0x2B :: rest => (false, rest)
    | 0x2D :: rest => (true, rest)
    | _ => (false, token)
  if signed.2.isEmpty then none
  else
    match signed.2.mapM hex_digit_val? with
    | none => none
    | some ds =>
      let v := ds.foldl (fun acc d => acc * 16 + d) 0
      if signed.1 then (if v = 0 then some 0 else none)
      else if v ≤ 255 then some v else none

/-- target_mac_address.split(':').map(|s| u8::from_str_radix(s, 16).unwrap());
none models the unwrap panic on any token that fails to parse. -/
def mac_bytes_of (target_mac : List Nat) : Option (List Nat) :=
  (split_colon target_mac).mapM u8_from_str_radix16

/-- Zero-pad at the end up to the given length (the while-push loops). -/
def pad_to (n : Nat) (l : List Nat) : List Nat :=
  l ++ List.replicate (n - l.length) 0

/- The smart-routing bodies, written out exactly as the buffers are built
in the source; target_mac_bytes arrives already parsed (6 wire bytes) and
self_mac is the UTF-8 byte sequence of the self MAC string argument. -/

def media_information_new_device_body (self_mac target_mac_bytes : List Nat) : List Nat :=
  target_mac_bytes.reverse ++ [0x68, 0x00] ++ [0x01, 0xE5, 0x4A] ++
  ascii_bytes "playingApp" ++ [0x42] ++ ascii_bytes "NA" ++ [0x52] ++
  ascii_bytes "hostStreamingState" ++ [0x42] ++ ascii_bytes "NO" ++ [0x49] ++
  ascii_bytes "btAddress" ++ [0x51] ++ self_mac ++ [0x46] ++
  ascii_bytes "btName" ++ [0x43] ++ ascii_bytes "Mac" ++ [0x58] ++
  ascii_bytes "otherDevice" ++ ascii_bytes "AudioCategory" ++ [0x30, 0x64]

def hijack_request_body (target_mac_bytes : List Nat) : List Nat :=
  pad_to 106
    (target_mac_bytes.reverse ++ [0x62, 0x00] ++ [0x01, 0xE5] ++ [0x4A] ++
     ascii_bytes "localscore" ++ [0x30, 0x64] ++ [0x46] ++ ascii_bytes "reason" ++ [0x48] ++
     ascii_bytes "Hijackv2" ++ [0x51] ++ ascii_bytes "audioRoutingScore" ++
     [0x31, 0x2D, 0x01, 0x5F] ++ ascii_bytes "audioRoutingSetOwnershipToFalse" ++ [0x01] ++
     [0x4B] ++ ascii_bytes "remotescore" ++ [0xA5])

def media_information_body (self_mac target_mac_bytes : List Nat)
    (streaming_state : Bool) : List Nat :=
  pad_to 138
    (target_mac_bytes.reverse ++ [0x82, 0x00] ++ [0x01, 0xE5, 0x4A] ++
     ascii_bytes "PlayingApp" ++ [0x56] ++ ascii_bytes "com.google.ios.youtube" ++ [0x52] ++
     ascii_bytes "HostStreamingState" ++ [0x42] ++
     (if streaming_state then ascii_bytes "YES" else ascii_bytes "NO") ++ [0x49] ++
     ascii_bytes "btAddress" ++ [0x51] ++ self_mac ++
     ascii_bytes "btName" ++ [0x43] ++ ascii_bytes "Mac" ++ [0x58] ++
     ascii_bytes "otherDevice" ++ ascii_bytes "AudioCategory" ++ [0x31, 0x2D, 0x01])

def smart_routing_show_ui_body (target_mac_bytes : List Nat) : List Nat :=
  pad_to 134
    (target_mac_bytes.reverse ++ [0x7E, 0x00] ++ [0x01, 0xE6, 0x5B] ++
     ascii_bytes "SmartRoutingKeyShowNearbyUI" ++ [0x01] ++ [0x4A] ++
     ascii_bytes "localscore" ++ [0x31, 0x2D] ++ [0x01] ++ [0x46] ++
     ascii_bytes "reasonHhijackv2" ++ [0x51] ++ ascii_bytes "audioRoutingScore" ++ [0xA2] ++
     [0x5F] ++ ascii_bytes "audioRoutingSetOwnershipToFalse" ++ [0x01] ++
     [0x4B] ++ ascii_bytes "remotescore" ++ [0xA2])

def hijack_reversed_body (target_mac_bytes : List Nat) : List Nat :=
  pad_to 97
    (target_mac_bytes.reverse ++ [0x59, 0x00] ++ [0x01, 0xE3] ++ [0x5F] ++
     ascii_bytes "audioRoutingSetOwnershipToFalse" ++ [0x01] ++ [0x59] ++
     ascii_bytes "audioRoutingShowReverseUI" ++ [0x01] ++ [0x46] ++
     ascii_bytes "reason" ++ [0x53] ++ ascii_bytes "ReverseBannerTapped")

def add_tipi_device_body (self_mac target_mac_bytes : List Nat) : List Nat :=
  target_mac_bytes.reverse ++ [0x4E, 0x00] ++ [0x01, 0xE5] ++ [0x48, 0x69] ++
  ascii_bytes "idleTime" ++ [0x08, 0x47] ++ ascii_bytes "newTipi" ++ [0x01, 0x49] ++
  ascii_bytes "btAddress" ++ [0x51] ++ self_mac ++ [0x46] ++
  ascii_bytes "btName" ++ [0x43] ++ ascii_bytes "Mac" ++ [0x50] ++
  ascii_bytes "nearbyAudioScore" ++ [0x0E]

def send_media_information_new_device (st : AACPManagerState)
    (self_mac target_mac : List Nat) : Option (Except SendError Unit × AACPManagerState) :=
  match mac_bytes_of target_mac with
  | none => none
  | some tmb =>
    some (send_data_packet st
      ([opcodes.SMART_ROUTING, 0x00] ++ media_information_new_device_body self_mac tmb))

def send_hijack_request (st : AACPManagerState) (target_mac : List Nat) :
    Option (Except SendError Unit × AACPManagerState) :=
  match mac_bytes_of target_mac with
  | none => none
  | some tmb =>
    some (send_data_packet st ([opcodes.SMART_ROUTING, 0x00] ++ hijack_request_body tmb))

def send_media_information (st : AACPManagerState) (self_mac target_mac : List Nat)
    (streaming_state : Bool) : Option (Except SendError Unit × AACPManagerState) :=
  match mac_bytes_of target_mac with
  | none => none
  | some tmb =>
    some (send_data_packet st
      ([opcodes.SMART_ROUTING, 0x00] ++ media_information_body self_mac tmb streaming_state))

def send_smart_routing_show_ui (st : AACPManagerState) (target_mac : List Nat) :
    Option (Except SendError Unit × AACPManagerState) :=
  match mac_bytes_of target_mac with
  | none => none
  | some tmb =>
    some (send_data_packet st ([opcodes.SMART_ROUTING, 0x00] ++ smart_routing_show_ui_body tmb))

def send_hijack_reversed (st : AACPManagerState) (target_mac : List Nat) :
    Option (Except SendError Unit × AACPManagerState) :=
  match mac_bytes_of target_mac with
  | none => none
  | some tmb =>
    some (send_data_packet st ([opcodes.SMART_ROUTING, 0x00] ++ hijack_reversed_body tmb))

def send_add_tipi_device (st : AACPManagerState) (self_mac target_mac : List Nat) :
    Option (Except SendError Unit × AACPManagerState) :=
  match mac_bytes_of target_mac with
  | none => none
  | some tmb =>
    some (send_data_packet st
      ([opcodes.SMART_ROUTING, 0x00] ++ add_tipi_device_body self_mac tmb))

/- ---------- fixtures for the concrete scenarios ---------- -/

/-- The peer MAC string used by the claim-2 and claim-3 scenarios. -/
def c2_mac : String := "00:11:22:33:44:55"

/-- An AirPods information record with non-empty stored LE keys. -/
def c2_info : AirPodsInformation :=
  { name := "AirPods Pro", model_number := "A2931", manufacturer := "Apple Inc."
  , serial_number := "SN0", version1 := "6A305", version2 := "6A305"
  , hardware_revision := "1.0.0", updater_identifier := "u1", left_serial_number := "L0"
  , right_serial_number := "R0", version3 := "3"
  , le_keys := { irk := "deadbeef", enc_key := "cafe" } }

/-- A session state whose devices map already holds a record with AirPods
information carrying non-empty LE keys under the current peer MAC. -/
def c2_state : AACPManagerState :=
  { init_state with
      airpods_mac := some c2_mac
    , devices := [(c2_mac, { name := "AirPods Pro", type_ := DeviceType.AirPods
                           , information := some (DeviceInformation.AirPods c2_info) })] }

/-- A session state with a peer MAC set and an empty devices map. -/
def c3_state : AACPManagerState :=
  { init_state with airpods_mac := some "66:55:44:33:22:11" }

/-- A session state with the event channel installed. -/
def c7_state : AACPManagerState := { init_state with event_tx := true }

/-- The self MAC argument of the smart-routing scenarios, in the standard
17-character form. -/
def c6_self : List Nat := ascii_bytes "AA:BB:CC:DD:EE:FF"

/-- The parsed 6 target-MAC bytes of the smart-routing scenarios. -/
def c6_tmb : List Nat := [0x11, 0x22, 0x33, 0x44, 0x55, 0x66]

/-- The MAC string the audio-source arm builds from payload bytes 2..=7
(the reversed 02X colon-separated rendering). -/
def audio_mac_string (a b c d e f : Nat) : String :=
  hex_upper2 f ++ ":" ++ hex_upper2 e ++ ":" ++ hex_upper2 d ++ ":" ++
  hex_upper2 c ++ ":" ++ hex_upper2 b ++ ":" ++ hex_upper2 a

/- ---------- shared lemmas ---------- -/

/-- A control command frame with known identifier byte reduces to the
shadow update, the ownership update, and the event emission. -/
theorem receive_packet_control_command (st : AACPManagerState)
    (b1 id v0 v1 v2 v3 : Nat) (rest : List Nat) (ident : ControlCommandIdentifiers)
    (hid : ControlCommandIdentifiers.from_u8 id = some ident) :
    receive_packet st
        (0x04 :: 0x00 :: 0x04 :: 0x00 :: 0x09 :: b1 :: id :: v0 :: v1 :: v2 :: v3 :: rest) =
      some ({ st with
                control_command_status_list :=
                  update_shadow st.control_command_status_list ident
                    (trim_value [v0, v1, v2, v3]),
                owns := if ident = ControlCommandIdentifiers.OwnsConnection
                        then v0 != 0 else st.owns },
            if st.event_tx then
              [AACPEvent.ControlCommand ⟨ident, trim_value [v0, v1, v2, v3]⟩]
            else [],
            []) := by
  have h : receive_packet st
      (0x04 :: 0x00 :: 0x04 :: 0x00 :: 0x09 :: b1 :: id :: v0 :: v1 :: v2 :: v3 :: rest) =
      (match ControlCommandIdentifiers.from_u8 id with
       | some identifier =>
         some ({ st with
                   control_command_status_list :=
                     update_shadow st.control_command_status_list identifier
                       (trim_value [v0, v1, v2, v3]),
                   owns := if identifier = ControlCommandIdentifiers.OwnsConnection
                           then v0 != 0 else st.owns },
               if st.event_tx then
                 [AACPEvent.ControlCommand ⟨identifier, trim_value [v0, v1, v2, v3]⟩]
               else [],
               ([] : List DevMap))
       | none => some (st, [], [])) := rfl
  rw [h, hid]

theorem update_shadow_filter_self (l : List ControlCommandStatus)
    (ident : ControlCommandIdentifiers) (v : List Nat)
    (h : (l.filter (fun s => s.identifier = ident)).length ≤ 1) :
    (update_shadow l ident v).filter (fun s => s.identifier = ident) = [⟨ident, v⟩] := by
  induction l with
  | nil => simp [update_shadow]
  | cons s rest ih =>
    by_cases hs : s.identifier = ident
    · have hrest : rest.filter (fun s => s.identifier = ident) = [] := by
        rw [List.filter_cons_of_pos (by simpa using hs)] at h
        simp only [List.length_cons] at h
        exact List.eq_nil_of_length_eq_zero (by omega)
      simp [update_shadow, hs, hrest]
    · rw [List.filter_cons_of_neg (by simpa using hs)] at h
      simp [update_shadow, hs, ih h]

theorem update_shadow_filter_ne (l : List ControlCommandStatus)
    (ident j : ControlCommandIdentifiers) (v : List Nat) (h : j ≠ ident) :
    (update_shadow l ident v).filter (fun s => s.identifier = j) =
      l.filter (fun s => s.identifier = j) := by
  induction l with
  | nil => simp [update_shadow, Ne.symm h]
  | cons s rest ih =>
    by_cases hs : s.identifier = ident
    · simp [update_shadow, hs, Ne.symm h]
    · simp only [update_shadow, if_neg hs]
      by_cases hj : s.identifier = j <;> simp [hj, ih]

/-- trim_value on four bytes agrees with the spec wording: the minimal
prefix up to and including the last non-zero byte, a single zero byte
when all four are zero. -/
theorem trim_value_eq_spec (v0 v1 v2 v3 : Nat) :
    trim_value [v0, v1, v2, v3] =
      (if v3 ≠ 0 then [v0, v1, v2, v3]
       else if v2 ≠ 0 then [v0, v1, v2]
       else if v1 ≠ 0 then [v0, v1]
       else if v0 ≠ 0 then [v0]
       else [0]) := by
  by_cases h3 : v3 = 0 <;> by_cases h2 : v2 = 0 <;> by_cases h1 : v1 = 0 <;>
    by_cases h0 : v0 = 0 <;>
    simp [trim_value, last_non_zero, h0, h1, h2, h3]

/-- A single-key proximity response parses into exactly that key pair. -/
theorem parse_keys_single (b1 b4 b6 kt : Nat) (data : List Nat) :
    parse_keys (0x31 :: b1 :: 0x01 :: kt :: b4 :: data.length :: b6 :: data) 1 3 =
      some [(kt, data)] := by
  have h1 : parse_keys (0x31 :: b1 :: 0x01 :: kt :: b4 :: data.length :: b6 :: data) 1 3 =
      (if 3 + 4 + data.length >
          (0x31 :: b1 :: 0x01 :: kt :: b4 :: data.length :: b6 :: data : List Nat).length then
        none
       else some [(kt, data.take data.length)]) := rfl
  rw [h1, if_neg (by simp only [List.length_cons]; omega), List.take_length]

/-- A frame carrying one proximity key reduces to one apply_key pass over
the devices map followed by a persistence write. -/
theorem receive_packet_proximity_single (st : AACPManagerState) (b1 b4 b6 kt : Nat)
    (data : List Nat) :
    receive_packet st
        (0x04 :: 0x00 :: 0x04 :: 0x00 :: 0x31 :: b1 :: 0x01 :: kt :: b4 ::
          data.length :: b6 :: data) =
      some ({ st with devices := apply_key st.airpods_mac st.devices (kt, data) },
            [], [apply_key st.airpods_mac st.devices (kt, data)]) := by
  have h1 : receive_packet st
      (0x04 :: 0x00 :: 0x04 :: 0x00 :: 0x31 :: b1 :: 0x01 :: kt :: b4 ::
        data.length :: b6 :: data) =
      (match parse_keys (0x31 :: b1 :: 0x01 :: kt :: b4 :: data.length :: b6 :: data) 1 3 with
       | none => some (st, [], [])
       | some keys =>
         some ({ st with devices := keys.foldl (apply_key st.airpods_mac) st.devices },
               [], [keys.foldl (apply_key st.airpods_mac) st.devices])) := rfl
  rw [h1, parse_keys_single]
  rfl

theorem find_dev_update_first (m : DevMap) (key : String) (f : DeviceData → DeviceData) :
    find_dev (update_first_dev m key f) key = (find_dev m key).map f := by
  induction m with
  | nil => simp [update_first_dev, find_dev]
  | cons kd rest ih =>
    obtain ⟨k, d⟩ := kd
    by_cases hk : k = key <;> simp [update_first_dev, find_dev, hk, ih]

theorem find_dev_append_none (m : DevMap) (key : String) (h : find_dev m key = none)
    (l : DevMap) : find_dev (m ++ l) key = find_dev l key := by
  induction m with
  | nil => simp [find_dev]
  | cons kd rest ih =>
    obtain ⟨k, d⟩ := kd
    by_cases hk : k = key
    · simp [find_dev, hk] at h
    · simp only [find_dev, hk] at h
      simp only [List.cons_append, find_dev, hk, if_false]
      exact ih h

/-- An audio-source frame stores the reversed colon-separated MAC and the
mapped source kind. -/
theorem receive_packet_audio_source (st : AACPManagerState)
    (b1 a b c d e f t : Nat) (rest : List Nat) :
    receive_packet st
        (0x04 :: 0x00 :: 0x04 :: 0x00 :: 0x0E :: b1 :: a :: b :: c :: d :: e :: f :: t :: rest) =
      some ({ st with audio_source :=
                          some (AudioSource.mk (audio_mac_string a b c d e f)
                            ((AudioSourceType.from_u8 t).getD AudioSourceType.None)) },
            if st.event_tx then
              [AACPEvent.AudioSource (AudioSource.mk (audio_mac_string a b c d e f)
                ((AudioSourceType.from_u8 t).getD AudioSourceType.None))]
            else [],
            []) := rfl

/- ---------- the claims ---------- -/

/-- C1 (code bug): the claim says every headed frame of length at least 5
is handled by log-and-discard, in particular EarDetection frames of
length 5, 6 or 7, Information frames whose payload tail has no NUL byte,
and ConnectedDevices frames of payload length exactly 3 + 8N.  The code
panics on all of these: the EarDetection arm indexes packet positions 6
and 7 unguarded, the Information arm calls remove(0) on an empty string
vector, and the ConnectedDevices arm reads up to payload index 8N + 4
under a length check of only 3 + 8N.  Each conjunct evaluates one such
frame to the panic outcome. -/
theorem receive_packet_panics_on_short_frames :
    receive_packet init_state [0x04, 0x00, 0x04, 0x00, 0x06] = none ∧
    receive_packet init_state [0x04, 0x00, 0x04, 0x00, 0x06, 0x01] = none ∧
    receive_packet init_state [0x04, 0x00, 0x04, 0x00, 0x06, 0x01, 0x00] = none ∧
    receive_packet init_state [0x04, 0x00, 0x04, 0x00, 0x1D, 0x00, 0x00, 0x00, 0x41, 0x41] = none ∧
    receive_packet init_state
      [0x04, 0x00, 0x04, 0x00, 0x2E, 0x00, 0x01, 0x01, 0x02, 0x03, 0x04, 0x05, 0x06, 0x07, 0x08] =
      none :=
  ⟨rfl, rfl, rfl, rfl, rfl⟩

/-- C2 (code bug): the claim says an Information packet merged into an
existing record preserves its non-empty LE keys.  The code rebuilds the
information with empty LE key strings and overwrites the record wholesale,
then persists: starting from a record whose irk is deadbeef and enc_key is
cafe, the frame leaves an information whose le_keys are both empty, and
one snapshot is written. -/
theorem information_packet_wipes_le_keys :
    c2_info.le_keys.irk = "deadbeef" ∧ c2_info.le_keys.enc_key = "cafe" ∧
    (receive_packet c2_state
        [0x04, 0x00, 0x04, 0x00, 0x1D, 0x00, 0x00, 0x00, 0x58, 0x00, 0x4C, 0x00, 0x42]).map
        (fun r => ((find_dev r.fst.devices c2_mac).map (fun d => d.information),
                   r.snd.snd.length)) =
      some (some (some (DeviceInformation.AirPods
        { name := "B", model_number := "", manufacturer := ""
        , serial_number := "", version1 := "", version2 := ""
        , hardware_revision := "", updater_identifier := "", left_serial_number := ""
        , right_serial_number := "", version3 := ""
        , le_keys := { irk := "", enc_key := "" } })), 1) :=
  ⟨rfl, rfl, rfl⟩

/-- C3 (counterexample): a ProximityKeysResponse carrying one Irk key pair
processed with no record for the peer MAC creates the default record, but
its information stays absent, so no AirPods information has its irk set to
the hex of the data, contrary to the claim that the key is stored in all
cases. -/
theorem proximity_key_on_default_record_not_stored :
    (receive_packet c3_state
        [0x04, 0x00, 0x04, 0x00, 0x31, 0x00, 0x01, 0x01, 0x00, 0x01, 0x00, 0xAB]).map
        (fun r => (find_dev r.fst.devices "66:55:44:33:22:11").map (fun d => d.information)) =
      some (some none) := rfl

/-- C3 (amended): for a ProximityKeysResponse carrying a single key pair
with key type 0x01 (Irk) or 0x04 (EncKey), processed while a peer MAC is
set: when no record exists for that MAC, a default record is created with
the peer MAC as its name and no information, and the key is not stored;
when the existing record carries AirPods information, its le_keys irk
(for 0x01) or enc_key (for 0x04) is set to the lower-case hex of the key
data. -/
theorem proximity_keys_update (st : AACPManagerState) (mac : String) (b1 b4 b6 : Nat)
    (data : List Nat) (hmac : st.airpods_mac = some mac) :
    (find_dev st.devices mac = none →
      (receive_packet st (0x04 :: 0x00 :: 0x04 :: 0x00 :: 0x31 :: b1 :: 0x01 :: 0x01 :: b4 ::
          data.length :: b6 :: data)).map (fun r => find_dev r.fst.devices mac) =
        some (some { name := mac, type_ := DeviceType.AirPods, information := none })) ∧
    (∀ d info, find_dev st.devices mac = some d →
      d.information = some (DeviceInformation.AirPods info) →
      (receive_packet st (0x04 :: 0x00 :: 0x04 :: 0x00 :: 0x31 :: b1 :: 0x01 :: 0x01 :: b4 ::
          data.length :: b6 :: data)).map (fun r => find_dev r.fst.devices mac) =
        some (some { d with information := some (DeviceInformation.AirPods
          { info with le_keys := { info.le_keys with irk := hex_encode data } }) })) ∧
    (∀ d info, find_dev st.devices mac = some d →
      d.information = some (DeviceInformation.AirPods info) →
      (receive_packet st (0x04 :: 0x00 :: 0x04 :: 0x00 :: 0x31 :: b1 :: 0x01 :: 0x04 :: b4 ::
          data.length :: b6 :: data)).map (fun r => find_dev r.fst.devices mac) =
        some (some { d with information := some (DeviceInformation.AirPods
          { info with le_keys := { info.le_keys with enc_key := hex_encode data } }) })) := by
  refine ⟨?_, ?_, ?_⟩
  · intro h
    rw [receive_packet_proximity_single, hmac]
    show some (find_dev (apply_key (some mac) st.devices (0x01, data)) mac) = _
    have h2 : apply_key (some mac) st.devices (0x01, data) =
        entry_or_insert_then st.devices mac
          { name := mac, type_ := DeviceType.AirPods, information := none }
          (apply_le_key ProximityKeyType.Irk data) := rfl
    rw [h2]
    unfold entry_or_insert_then
    rw [h]
    simp only [Option.isSome_none, Bool.false_eq_true, if_false]
    rw [find_dev_append_none st.devices mac h]
    simp [find_dev, apply_le_key]
  · intro d info hd hinfo
    rw [receive_packet_proximity_single, hmac]
    show some (find_dev (apply_key (some mac) st.devices (0x01, data)) mac) = _
    have h2 : apply_key (some mac) st.devices (0x01, data) =
        entry_or_insert_then st.devices mac
          { name := mac, type_ := DeviceType.AirPods, information := none }
          (apply_le_key ProximityKeyType.Irk data) := rfl
    rw [h2]
    unfold entry_or_insert_then
    rw [hd]
    simp only [Option.isSome_some, if_true]
    rw [find_dev_update_first, hd]
    simp [apply_le_key, hinfo]
  · intro d info hd hinfo
    rw [receive_packet_proximity_single, hmac]
    show some (find_dev (apply_key (some mac) st.devices (0x04, data)) mac) = _
    have h2 : apply_key (some mac) st.devices (0x04, data) =
        entry_or_insert_then st.devices mac
          { name := mac, type_ := DeviceType.AirPods, information := none }
          (apply_le_key ProximityKeyType.EncKey data) := rfl
    rw [h2]
    unfold entry_or_insert_then
    rw [hd]
    simp only [Option.isSome_some, if_true]
    rw [find_dev_update_first, hd]
    simp [apply_le_key, hinfo]

/-- C3 witness: a two-byte Irk key arriving for a record that carries
AirPods information sets its irk to abcd. -/
theorem proximity_keys_update_witness :
    c2_state.airpods_mac = some c2_mac ∧
    (receive_packet c2_state
        [0x04, 0x00, 0x04, 0x00, 0x31, 0x00, 0x01, 0x01, 0x00, 0x02, 0x00, 0xAB, 0xCD]).map
        (fun r => find_dev r.fst.devices c2_mac) =
      some (some { name := "AirPods Pro", type_ := DeviceType.AirPods
                 , information := some (DeviceInformation.AirPods
                     { c2_info with le_keys := { c2_info.le_keys with irk := "abcd" } }) }) := by
  constructor
  · rfl
  · have h := (proximity_keys_update c2_state c2_mac 0x00 0x00 0x00 [0xAB, 0xCD] rfl).2.1
      { name := "AirPods Pro", type_ := DeviceType.AirPods
      , information := some (DeviceInformation.AirPods c2_info) } c2_info rfl rfl
    exact h.trans (by rfl)

/-- C4: after a control command frame with a known identifier and four
value bytes, processed in a state whose shadow holds at most one entry
per identifier, the shadow holds exactly one entry for that identifier,
its value is the minimal prefix of the four value bytes up to and
including the last non-zero byte (a single zero byte when all four are
zero), at most one entry per identifier remains, and the entries of every
other identifier are unchanged. -/
theorem control_command_shadow_invariant (st : AACPManagerState)
    (b1 id v0 v1 v2 v3 : Nat) (rest : List Nat) (ident : ControlCommandIdentifiers)
    (hid : ControlCommandIdentifiers.from_u8 id = some ident)
    (hinv : ∀ j, (st.control_command_status_list.filter
                    (fun s => s.identifier = j)).length ≤ 1) :
    ∃ l, (receive_packet st
            (0x04 :: 0x00 :: 0x04 :: 0x00 :: 0x09 :: b1 :: id :: v0 :: v1 :: v2 :: v3 :: rest)).map
            (fun r => r.fst.control_command_status_list) = some l ∧
      (∀ j, (l.filter (fun s => s.identifier = j)).length ≤ 1) ∧
      l.filter (fun s => s.identifier = ident) =
        [⟨ident, if v3 ≠ 0 then [v0, v1, v2, v3]
                 else if v2 ≠ 0 then [v0, v1, v2]
                 else if v1 ≠ 0 then [v0, v1]
                 else if v0 ≠ 0 then [v0]
                 else [0]⟩] ∧
      (∀ j, j ≠ ident →
        l.filter (fun s => s.identifier = j) =
          st.control_command_status_list.filter (fun s => s.identifier = j)) := by
  refine ⟨update_shadow st.control_command_status_list ident (trim_value [v0, v1, v2, v3]),
          ?_, ?_, ?_, ?_⟩
  · rw [receive_packet_control_command st b1 id v0 v1 v2 v3 rest ident hid]
    rfl
  · intro j
    by_cases hj : j = ident
    · subst hj
      rw [update_shadow_filter_self _ _ _ (hinv j)]
      simp
    · rw [update_shadow_filter_ne _ _ _ _ hj]
      exact hinv j
  · rw [update_shadow_filter_self _ _ _ (hinv ident), trim_value_eq_spec]
  · intro j hj
    exact update_shadow_filter_ne _ _ _ _ hj

/-- C4 witness: the SingleClickMode frame with value bytes 03 00 00 00
leaves exactly one SingleClickMode entry whose value trims to [3]. -/
theorem control_command_shadow_invariant_witness :
    (∀ j, ((init_state.control_command_status_list.filter
              (fun s => s.identifier = j)).length ≤ 1)) ∧
    (∃ l, (receive_packet init_state
            [0x04, 0x00, 0x04, 0x00, 0x09, 0x00, 0x14, 0x03, 0x00, 0x00, 0x00]).map
            (fun r => r.fst.control_command_status_list) = some l ∧
      (∀ j, (l.filter (fun s => s.identifier = j)).length ≤ 1) ∧
      l.filter (fun s => s.identifier = ControlCommandIdentifiers.SingleClickMode) =
        [⟨ControlCommandIdentifiers.SingleClickMode,
          if (0 : Nat) ≠ 0 then [0x03, 0, 0, 0]
          else if (0 : Nat) ≠ 0 then [0x03, 0, 0]
          else if (0 : Nat) ≠ 0 then [0x03, 0]
          else if (3 : Nat) ≠ 0 then [0x03]
          else [0]⟩] ∧
      (∀ j, j ≠ ControlCommandIdentifiers.SingleClickMode →
        l.filter (fun s => s.identifier = j) =
          init_state.control_command_status_list.filter (fun s => s.identifier = j))) := by
  refine ⟨fun j => by simp [init_state], ?_⟩
  exact control_command_shadow_invariant init_state 0x00 0x14 0x03 0x00 0x00 0x00 []
    ControlCommandIdentifiers.SingleClickMode rfl (fun j => by simp [init_state])

/-- C5: a control command frame with identifier byte 0x06 sets the
ownership flag to the truth value of its first value byte, and a control
command frame with any other known identifier leaves the ownership flag
unchanged. -/
theorem owns_connection_flag (st : AACPManagerState) :
    (∀ (b1 v0 v1 v2 v3 : Nat) (rest : List Nat),
      (receive_packet st
          (0x04 :: 0x00 :: 0x04 :: 0x00 :: 0x09 :: b1 :: 0x06 :: v0 :: v1 :: v2 :: v3 :: rest)).map
        (fun r => r.fst.owns) = some (v0 != 0)) ∧
    (∀ (b1 id v0 v1 v2 v3 : Nat) (rest : List Nat) (ident : ControlCommandIdentifiers),
      ControlCommandIdentifiers.from_u8 id = some ident →
      ident ≠ ControlCommandIdentifiers.OwnsConnection →
      (receive_packet st
          (0x04 :: 0x00 :: 0x04 :: 0x00 :: 0x09 :: b1 :: id :: v0 :: v1 :: v2 :: v3 :: rest)).map
        (fun r => r.fst.owns) = some st.owns) := by
  constructor
  · intro b1 v0 v1 v2 v3 rest
    rw [receive_packet_control_command st b1 0x06 v0 v1 v2 v3 rest
          ControlCommandIdentifiers.OwnsConnection rfl]
    simp
  · intro b1 id v0 v1 v2 v3 rest ident hid hne
    rw [receive_packet_control_command st b1 id v0 v1 v2 v3 rest ident hid]
    simp [hne]

/-- C5 witness: an OwnsConnection frame with first value byte 1 sets the
flag, and a MicMode frame leaves the initial false flag unchanged. -/
theorem owns_connection_flag_witness :
    (receive_packet init_state
        [0x04, 0x00, 0x04, 0x00, 0x09, 0x00, 0x06, 0x01, 0x00, 0x00, 0x00]).map
      (fun r => r.fst.owns) = some true ∧
    (receive_packet init_state
        [0x04, 0x00, 0x04, 0x00, 0x09, 0x00, 0x01, 0x05, 0x00, 0x00, 0x00]).map
      (fun r => r.fst.owns) = some false := by
  constructor
  · exact ((owns_connection_flag init_state).1 0x00 0x01 0x00 0x00 0x00 []).trans (by rfl)
  · exact ((owns_connection_flag init_state).2 0x00 0x01 0x05 0x00 0x00 0x00 []
      ControlCommandIdentifiers.MicMode rfl (by simp)).trans (by rfl)

/-- C6 (code bug): with a 17-character self MAC and a well-formed target
MAC, the smart-routing bodies begin with the six reversed target-MAC
bytes and have the documented fixed lengths for five of the six variants
(112, 106, 138 for either streaming state, 134, 97); the add-TIPI body,
documented as 86 bytes, is in fact 87 bytes long. -/
theorem smart_routing_body_lengths :
    mac_bytes_of (ascii_bytes "11:22:33:44:55:66") = some c6_tmb ∧
    c6_self.length = 17 ∧
    (media_information_new_device_body c6_self c6_tmb).length = 112 ∧
    (media_information_new_device_body c6_self c6_tmb).take 6 = c6_tmb.reverse ∧
    (hijack_request_body c6_tmb).length = 106 ∧
    (hijack_request_body c6_tmb).take 6 = c6_tmb.reverse ∧
    (media_information_body c6_self c6_tmb true).length = 138 ∧
    (media_information_body c6_self c6_tmb false).length = 138 ∧
    (media_information_body c6_self c6_tmb true).take 6 = c6_tmb.reverse ∧
    (smart_routing_show_ui_body c6_tmb).length = 134 ∧
    (smart_routing_show_ui_body c6_tmb).take 6 = c6_tmb.reverse ∧
    (hijack_reversed_body c6_tmb).length = 97 ∧
    (hijack_reversed_body c6_tmb).take 6 = c6_tmb.reverse ∧
    (add_tipi_device_body c6_self c6_tmb).length = 87 ∧
    (add_tipi_device_body c6_self c6_tmb).take 6 = c6_tmb.reverse :=
  ⟨rfl, rfl, rfl, rfl, rfl, rfl, rfl, rfl, rfl, rfl, rfl, rfl, rfl, rfl, rfl⟩

/-- C7: the concrete battery frame of scenario S1 replaces the battery
shadow with the Left-charging and Right-not-charging pair, in that order,
and emits exactly that list to the event sink. -/
theorem battery_scenario_concrete :
    receive_packet c7_state
        [0x04, 0x00, 0x04, 0x00, 0x04, 0x00, 0x02,
         0x04, 0x01, 0x32, 0x01, 0x00, 0x02, 0x01, 0x28, 0x02, 0x00] =
      some ({ c7_state with battery_info :=
                [⟨BatteryComponent.Left, 0x32, BatteryStatus.Charging⟩,
                 ⟨BatteryComponent.Right, 0x28, BatteryStatus.NotCharging⟩] },
            [AACPEvent.BatteryInfo
                [⟨BatteryComponent.Left, 0x32, BatteryStatus.Charging⟩,
                 ⟨BatteryComponent.Right, 0x28, BatteryStatus.NotCharging⟩]],
            []) := rfl

/-- C8: every audio-source frame with at least nine payload bytes stores
as MAC string the upper-case colon-separated hex of payload bytes 2..=7
in reversed byte order, and concretely bytes AA BB CC DD EE FF yield
FF:EE:DD:CC:BB:AA. -/
theorem audio_source_mac_reversed :
    (∀ (st : AACPManagerState) (b1 a b c d e f t : Nat) (rest : List Nat),
      (receive_packet st
          (0x04 :: 0x00 :: 0x04 :: 0x00 :: 0x0E :: b1 :: a :: b :: c :: d :: e :: f :: t :: rest)).map
        (fun r => r.fst.audio_source.map (fun s => s.mac)) =
      some (some (hex_upper2 f ++ ":" ++ hex_upper2 e ++ ":" ++ hex_upper2 d ++ ":" ++
                  hex_upper2 c ++ ":" ++ hex_upper2 b ++ ":" ++ hex_upper2 a))) ∧
    (receive_packet init_state
        [0x04, 0x00, 0x04, 0x00, 0x0E, 0x00, 0xAA, 0xBB, 0xCC, 0xDD, 0xEE, 0xFF, 0x02]).map
      (fun r => r.fst.audio_source.map (fun s => s.mac)) = some (some "FF:EE:DD:CC:BB:AA") := by
  constructor
  · intro st b1 a b c d e f t rest
    rw [receive_packet_audio_source]
    rfl
  · rfl

/-- C9: when the sender handle is absent, every send operation returns
the not-connected error and leaves the state unchanged (the smart-routing
variants, whose MAC argument parses, return it wrapped in some). -/
theorem send_when_disconnected (st : AACPManagerState) (data : List Nat)
    (h : st.sender = none) :
    send_packet st data = (Except.error SendError.notConnected, st) ∧
    send_data_packet st data = (Except.error SendError.notConnected, st) ∧
    send_notification_request st = (Except.error SendError.notConnected, st) ∧
    send_set_feature_flags_packet st = (Except.error SendError.notConnected, st) ∧
    send_handshake st = (Except.error SendError.notConnected, st) ∧
    (∀ kts, send_proximity_keys_request st kts = (Except.error SendError.notConnected, st)) ∧
    (∀ nb, send_rename_packet st nb = (Except.error SendError.notConnected, st)) ∧
    (∀ ident v, send_control_command st ident v = (Except.error SendError.notConnected, st)) ∧
    (∀ self tgt tmb, mac_bytes_of tgt = some tmb →
      send_media_information_new_device st self tgt =
        some (Except.error SendError.notConnected, st) ∧
      send_hijack_request st tgt = some (Except.error SendError.notConnected, st) ∧
      (∀ b, send_media_information st self tgt b =
        some (Except.error SendError.notConnected, st)) ∧
      send_smart_routing_show_ui st tgt = some (Except.error SendError.notConnected, st) ∧
      send_hijack_reversed st tgt = some (Except.error SendError.notConnected, st) ∧
      send_add_tipi_device st self tgt = some (Except.error SendError.notConnected, st)) := by
  have hp : ∀ d, send_packet st d = (Except.error SendError.notConnected, st) := by
    intro d
    unfold send_packet
    rw [h]
  refine ⟨hp data, hp _, hp _, hp _, hp _, fun kts => hp _, fun nb => hp _,
          fun ident v => hp _, ?_⟩
  intro self tgt tmb htmb
  refine ⟨?_, ?_, fun b => ?_, ?_, ?_, ?_⟩ <;>
    simp [send_media_information_new_device, send_hijack_request, send_media_information,
          send_smart_routing_show_ui, send_hijack_reversed, send_add_tipi_device,
          send_data_packet, htmb, hp]

/-- C9 witness: sending two bytes on the freshly constructed state (whose
sender handle is absent) yields the not-connected error and the same
state. -/
theorem send_when_disconnected_witness :
    init_state.sender = none ∧
    send_packet init_state [0x01, 0x02] = (Except.error SendError.notConnected, init_state) :=
  ⟨rfl, (send_when_disconnected init_state [0x01, 0x02] rfl).1⟩

/-- C10: every smart-routing send panics, instead of returning an error,
whenever some colon-separated token of the target MAC argument fails to
parse as a hex byte. -/
theorem smart_routing_mac_parse_panic (st : AACPManagerState) (self tgt : List Nat)
    (h : mac_bytes_of tgt = none) :
    send_media_information_new_device st self tgt = none ∧
    send_hijack_request st tgt = none ∧
    (∀ b, send_media_information st self tgt b = none) ∧
    send_smart_routing_show_ui st tgt = none ∧
    send_hijack_reversed st tgt = none ∧
    send_add_tipi_device st self tgt = none := by
  refine ⟨?_, ?_, fun b => ?_, ?_, ?_, ?_⟩ <;>
    simp [send_media_information_new_device, send_hijack_request, send_media_information,
          send_smart_routing_show_ui, send_hijack_reversed, send_add_tipi_device, h]

/-- C10 witness: the target string ZZ:22:33:44:55:66 has a non-hex token,
its parse fails, and the hijack send panics on it. -/
theorem smart_routing_mac_parse_panic_witness :
    mac_bytes_of (ascii_bytes "ZZ:22:33:44:55:66") = none ∧
    send_hijack_request init_state (ascii_bytes "ZZ:22:33:44:55:66") = none :=
  ⟨rfl, (smart_routing_mac_parse_panic init_state []
          (ascii_bytes "ZZ:22:33:44:55:66") rfl).2.1⟩
